import Mathlib

/-!
Verification of the ObserverAI core (`observer/core/observer.py`) and its
adapters (`observer/adapters/*.py`) against the natural-language spec.

Shallow embedding conventions:
* `datetime.now()` is modelled by a monotone `Nat` clock carried in the
  observer state; each call to `now` reads the clock and increments it.
* Python `dict` keyed by session id is modelled by an association list with
  replace-on-insert semantics (`insertSession`).
* Python truthiness of `self.current_session` (`None` and `""` are falsy)
  is modelled by `pyTruthy`.
* Numeric metadata values and confidence scores are modelled by `ℚ`.
* `inputs` / `outputs` are opaque open key/value payloads; the core never
  inspects them, so they are modelled as string association lists.
-/

namespace ObserverAI

/-- Opaque open key/value payload (the core performs no validation on
`inputs` / `outputs` contents). -/
abbrev Payload : Type := List (String × String)

/-- The metadata keys recognized by the aggregator
(`metadata.get('response_time', 0)`, `metadata.get('token_usage', 0)`,
`metadata.get('success', False)`); a `none` field models an absent key. -/
structure Metadata where
  response_time : Option ℚ := none
  token_usage : Option ℚ := none
  success : Option Bool := none
deriving DecidableEq

/-- The empty metadata dict (`metadata or {}` in `track_decision`). -/
def Metadata.empty : Metadata := {}

/-- One decision record, as appended by `Observer.track_decision`. -/
structure Decision where
  timestamp : Nat
  agent_id : String
  inputs : Payload
  outputs : Payload
  metadata : Metadata
deriving DecidableEq

/-- The per-session running counters initialized by `Observer.session`
(the code initializes them and never updates them). -/
structure SessionCounters where
  total_tokens : Nat := 0
  total_time : Nat := 0
  success_count : Nat := 0
  failure_count : Nat := 0
deriving DecidableEq

/-- One entry of `Observer.observations`. -/
structure SessionData where
  start_time : Nat
  end_time : Option Nat
  decisions : List Decision
  metrics : SessionCounters
deriving DecidableEq

/-- The state of an `Observer` object, plus the clock that models
`datetime.now()`. -/
structure ObserverState where
  observations : List (String × SessionData)
  current_session : Option String
  clock : Nat
deriving DecidableEq

/-- Model of `Observer.__init__`: empty registry, no current session. -/
def initState : ObserverState :=
  { observations := [], current_session := none, clock := 0 }

/-- Model of `datetime.now()`: read the clock and advance it. -/
def tick (st : ObserverState) : Nat × ObserverState :=
  (st.clock, { st with clock := st.clock + 1 })

/-- Python dict membership / `self.observations[k]` lookup. -/
def lookupSession (obs : List (String × SessionData)) (k : String) :
    Option SessionData :=
  match obs with
  | [] => none
  | (k', v) :: rest => if k' = k then some v else lookupSession rest k

/-- Python dict assignment `self.observations[k] = v`: replaces the
binding for `k` if present, otherwise appends it. -/
def insertSession (obs : List (String × SessionData)) (k : String)
    (v : SessionData) : List (String × SessionData) :=
  match obs with
  | [] => [(k, v)]
  | (k', v') :: rest =>
    if k' = k then (k', v) :: rest else (k', v') :: insertSession rest k v

/-- Python truthiness of an `Optional[str]`: `None` and `""` are falsy. -/
def pyTruthy : Option String → Bool
  | none => false
  | some s => !s.isEmpty

/-- Model of `session_name or str(uuid.uuid4())`: the caller-supplied name when it
is a truthy (non-empty) string, otherwise the freshly generated uuid. -/
def resolveSessionId (session_name : Option String) (uuid : String) : String :=
  match session_name with
  | some s => if s.isEmpty then uuid else s
  | none => uuid

/-- The entry part of `Observer.session` (up to the `yield`): resolve the
session id, mark it current, and store a fresh session record.  `uuid`
stands for the `str(uuid.uuid4())` the code would generate when the name
is absent or empty. -/
def openSession (st : ObserverState) (session_name : Option String)
    (uuid : String) : ObserverState :=
  let sid := resolveSessionId session_name uuid
  let (t, st') := tick st
  { st' with
    current_session := some sid,
    observations := insertSession st'.observations sid
      { start_time := t, end_time := none, decisions := [], metrics := {} } }

/-- The `finally` block of `Observer.session`: if the current-session
pointer is truthy, record the end timestamp for the session it points to
and clear the pointer.  (A falsy pointer skips both actions; a pointer to
a missing key would raise `KeyError` after the `datetime.now()` call,
leaving the pointer in place.) -/
def closeScope (st : ObserverState) : ObserverState :=
  if pyTruthy st.current_session then
    match st.current_session with
    | none => st
    | some sid =>
      let (t, st') := tick st
      match lookupSession st'.observations sid with
      | none => st'
      | some sess =>
        { st' with
          observations := insertSession st'.observations sid
            { sess with end_time := some t },
          current_session := none }
  else st

/-- Error message raised by `track_decision` when no session is active. -/
def noActiveSessionMsg : String :=
  "No active session. Use with observer.session to create one."

/-- Model of `Observer.track_decision`: returns the post-state and, when the call
raised, the error message.  On the precondition failure the state is
returned unchanged (the check precedes every side effect); on the
(unreachable in well-formed use) `KeyError` path only the clock has
advanced, since `datetime.now()` ran while building the record. -/
def track_decision (st : ObserverState) (agent_id : String)
    (inputs outputs : Payload) (metadata : Option Metadata) :
    ObserverState × Option String :=
  if pyTruthy st.current_session then
    match st.current_session with
    | none => (st, some noActiveSessionMsg)
    | some sid =>
      let (t, st') := tick st
      let d : Decision :=
        { timestamp := t, agent_id := agent_id, inputs := inputs,
          outputs := outputs, metadata := metadata.getD Metadata.empty }
      match lookupSession st'.observations sid with
      | none => (st', some ("KeyError: " ++ sid))
      | some sess =>
        ({ st' with
           observations := insertSession st'.observations sid
             { sess with decisions := sess.decisions ++ [d] } }, none)
  else (st, some noActiveSessionMsg)

/-- The zero / totals structure of `Observer._calculate_averages`. -/
structure Averages where
  avg_response_time : ℚ
  avg_token_usage : ℚ
  success_rate : ℚ
deriving DecidableEq

/-- Model of `Observer._calculate_averages`: the empty sequence returns the fixed
zero structure; otherwise the loop accumulates the three totals and the
result divides each by the decision count (success total scaled to a
percentage). -/
def calculate_averages (decisions : List Decision) : Averages :=
  if decisions = [] then
    { avg_response_time := 0, avg_token_usage := 0, success_rate := 0 }
  else
    let totals := decisions.foldl
      (fun (t : ℚ × ℚ × ℚ) d =>
        (t.1 + d.metadata.response_time.getD 0,
         t.2.1 + d.metadata.token_usage.getD 0,
         t.2.2 + if d.metadata.success.getD false then 1 else 0))
      (0, 0, 0)
    let count : ℚ := (decisions.length : ℚ)
    { avg_response_time := totals.1 / count,
      avg_token_usage := totals.2.1 / count,
      success_rate := totals.2.2 / count * 100 }

/-- The result record of `Observer.get_session_metrics`. -/
structure Metrics where
  duration : Int
  decision_count : Nat
  agents : Finset String
  averages : Averages
deriving DecidableEq

/-- Model of `Observer.get_session_metrics`: `KeyError` for an unknown session id;
otherwise duration (using `now` for a still-open session), decision
count, the set of distinct agent ids, and the averages. -/
def get_session_metrics (st : ObserverState) (session_id : String) :
    Except String Metrics :=
  match lookupSession st.observations session_id with
  | none => .error ("Session " ++ session_id ++ " not found")
  | some sess =>
    let end_time := sess.end_time.getD st.clock
    .ok { duration := (end_time : Int) - (sess.start_time : Int),
          decision_count := sess.decisions.length,
          agents := (sess.decisions.map (fun d => d.agent_id)).toFinset,
          averages := calculate_averages sess.decisions }

/-- One tracking request issued by the work enclosed in a session scope. -/
structure TrackReq where
  agent_id : String
  inputs : Payload
  outputs : Payload
  metadata : Option Metadata

/-- The work enclosed by a `with observer.session(...)` block, modelled
as a sequence of `track_decision` calls executed in order; a raising call
aborts the rest of the body (the exception propagates to the scope).
Returns the state together with `true` when the body completed normally.
An early return or an error raised by the agent work after `k` calls is
the same final state as running only the first `k` requests. -/
def runBody (st : ObserverState) (reqs : List TrackReq) :
    ObserverState × Bool :=
  match reqs with
  | [] => (st, true)
  | r :: rest =>
    match track_decision st r.agent_id r.inputs r.outputs r.metadata with
    | (st', none) => runBody st' rest
    | (st', some _) => (st', false)

/-- Model of `with observer.session(name) as sid: body` — open, run the body, and
run the `finally` block whether or not the body completed. -/
def sessionScope (st : ObserverState) (session_name : Option String)
    (uuid : String) (reqs : List TrackReq) : ObserverState :=
  let st1 := openSession st session_name uuid
  let (st2, _ok) := runBody st1 reqs
  closeScope st2

/-- States reachable from a fresh `Observer()` by the public operations.
The `uuid` of an open step is the `str(uuid.uuid4())` the code generates,
which is never the empty string. -/
inductive Reachable : ObserverState → Prop where
  | init : Reachable initState
  | openStep {st name uuid} : Reachable st → uuid ≠ "" →
      Reachable (openSession st name uuid)
  | closeStep {st} : Reachable st → Reachable (closeScope st)
  | trackStep {st a i o m} : Reachable st →
      Reachable (track_decision st a i o m).1

/-! ### Adapter-side definitions (`observer/adapters/*.py`) -/

/-- The ordinal confidence levels (`DecisionConfidence` enum). -/
inductive DecisionConfidence where
  | LOW
  | MEDIUM
  | HIGH
deriving DecidableEq

/-- Split a character list at the first occurrence of `sep`: the part
before it and the part after it, or `none` when `sep` does not occur. -/
def splitFirst (sep : List Char) : List Char → Option (List Char × List Char)
  | [] => none
  | c :: rest =>
    if sep.isPrefixOf (c :: rest) then some ([], (c :: rest).drop sep.length)
    else
      match splitFirst sep rest with
      | some (pre, post) => some (c :: pre, post)
      | none => none

theorem splitFirst_post_length_lt (sep : List Char) (l pre post : List Char)
    (hsep : sep ≠ []) (h : splitFirst sep l = some (pre, post)) :
    post.length < l.length := by
  induction l generalizing pre with
  | nil => simp [splitFirst] at h
  | cons c rest ih =>
    unfold splitFirst at h
    by_cases hp : sep.isPrefixOf (c :: rest)
    · rw [if_pos hp] at h
      cases h
      have h1 : 1 ≤ sep.length := by
        cases sep with
        | nil => exact absurd rfl hsep
        | cons a b => simp
      simp only [List.length_drop, List.length_cons]
      omega
    · rw [if_neg hp] at h
      cases hsp : splitFirst sep rest with
      | none =>
        rw [hsp] at h
        cases h
      | some pr =>
        obtain ⟨pre', post'⟩ := pr
        rw [hsp] at h
        cases h
        exact Nat.lt_succ_of_lt (ih pre' hsp)

/-- Fuel-driven splitting loop; by `splitFirst_post_length_lt` the
remainder shrinks at every step, so `l.length + 1` units of fuel always
suffice and the `0` case is never reached from `splitListOn`. -/
def splitListOnAuxF : Nat → List Char → List Char → List (List Char)
  | 0, _, l => [l]
  | fuel + 1, sep, l =>
    match splitFirst sep l with
    | none => [l]
    | some (pre, post) => pre :: splitListOnAuxF fuel sep post

/-- Python `s.split(sep)` for a non-empty separator, on character lists:
the pieces between consecutive leftmost non-overlapping occurrences. -/
def splitListOn (sep : List Char) (l : List Char) : List (List Char) :=
  if sep = [] then [l] else splitListOnAuxF (l.length + 1) sep l

/-- Python `s.split(sep)` as a `String` operation. -/
def pySplit (s sep : String) : List String :=
  (splitListOn sep.data s.data).map (fun l => ⟨l⟩)

/-- Python `sub in s`. -/
def strContains (s sub : String) : Bool :=
  (splitFirst sub.data s.data).isSome

/-- Python `s.startswith(pre)`. -/
def startsWithStr (s pre : String) : Bool :=
  pre.data.isPrefixOf s.data

/-- Python `s.strip()` restricted to ASCII whitespace. -/
def pyStrip (s : String) : String :=
  ⟨((s.data.dropWhile Char.isWhitespace).reverse.dropWhile
      Char.isWhitespace).reverse⟩

/-- Python `s.lower()` restricted to ASCII letters. -/
def pyLower (s : String) : String :=
  ⟨s.data.map Char.toLower⟩

/-- Python `line.split(':', 1)[1]`: everything after the first `:`
(the callers guard with `line.startswith(...)`, so a `:` is present;
without one the subscript would raise `IndexError`, modelled as `""`). -/
def afterFirstColon (line : String) : String :=
  match splitFirst [':'] line.data with
  | some (_, post) => ⟨post⟩
  | none => ""

/-- Value of a digit run that may contain single `_` separators between
digits, as Python's `int()` accepts (`none` when the run is malformed:
empty, a non-digit/non-underscore character, or an underscore not placed
strictly between two digits). -/
def pyIntDigits : List Char → Option Nat
  | [] => none
  | c :: rest =>
    if c.isDigit then
      let step := fun (acc : Option Nat) (d : Char) =>
        match acc with
        | none => none
        | some n => if d.isDigit then some (n * 10 + (d.toNat - 48)) else none
      (rest.filter (fun d => d != '_')).foldl step (some (c.toNat - 48)) |>.bind
        (fun n =>
          -- an underscore must sit between two digits: never doubled,
          -- never trailing (a leading one is already excluded above)
          if (rest.zip (rest.drop 1)).all
              (fun p => !(p.1 = '_' && p.2 = '_')) &&
             (rest.getLast? ≠ some '_') then some n else none)
    else none

/-- Python `int(text)` on a decimal literal: strips surrounding
whitespace, accepts an optional `+`/`-` sign followed by ASCII digits
(with `_` group separators); anything else raises `ValueError`,
modelled as `none`. -/
def pyInt (text : String) : Option Int :=
  let t := pyStrip text
  match t.data with
  | '+' :: rest => (pyIntDigits rest).map (fun n => (n : Int))
  | '-' :: rest => (pyIntDigits rest).map (fun n => -(n : Int))
  | l => (pyIntDigits l).map (fun n => (n : Int))

/-- Value produced by a successful Python `float(...)` conversion: a
finite value (represented as an exact rational, the standard
idealization of the IEEE double), or one of the special values `inf`,
`-inf`, `nan`, whose literals Python also accepts. -/
inductive PyFloatVal where
  | finite (q : ℚ)
  | inf
  | neginf
  | nan
deriving DecidableEq

/-- Whether a float value lies in the closed interval [0,1].  The
special values do not: the infinities are out of range and every IEEE
comparison with `nan` is false. -/
def PyFloatVal.inUnit : PyFloatVal → Bool
  | .finite q => decide (0 ≤ q ∧ q ≤ 1)
  | _ => false

/-- Fraction value of the digit run after the decimal point, with the
same PEP 515 underscore rules as every other digit run; the scale is
the number of digits, underscores not counted. -/
def pyFracDigits (l : List Char) : Option ℚ :=
  (pyIntDigits l).map
    (fun n => (n : ℚ) / (10 : ℚ) ^ (l.filter (fun c => c != '_')).length)

/-- Mantissa of a float literal: `digits`, `digits.digits`, `digits.`
or `.digits`, each digit run with PEP 515 underscores. -/
def pyFloatMantissa (l : List Char) : Option ℚ :=
  match splitListOn ['.'] l with
  | [whole] => (pyIntDigits whole).map (fun n => (n : ℚ))
  | [whole, frac] =>
    match whole, frac with
    | [], [] => none
    | [], f => pyFracDigits f
    | w, [] => (pyIntDigits w).map (fun n => (n : ℚ))
    | w, f => do
      let wn ← pyIntDigits w
      let fq ← pyFracDigits f
      pure ((wn : ℚ) + fq)
  | _ => none

/-- Exponent part of a float literal: an optional sign followed by a
digit run (PEP 515 underscores allowed). -/
def pyFloatExponent (l : List Char) : Option Int :=
  match l with
  | '+' :: rest => (pyIntDigits rest).map (fun n => (n : Int))
  | '-' :: rest => (pyIntDigits rest).map (fun n => -(n : Int))
  | _ => (pyIntDigits l).map (fun n => (n : Int))

/-- Python `float(text)` restricted to ASCII: strips whitespace, reads
an optional sign, then either a special value (`inf`, `infinity`,
`nan`, case-insensitive) or a decimal mantissa with an optional
`e`/`E` exponent; anything else raises `ValueError`, modelled as
`none`.  Finite values are exact rationals. -/
def pyFloat (text : String) : Option PyFloatVal :=
  let t := pyStrip text
  let (neg, body) :=
    match t.data with
    | '+' :: rest => (false, rest)
    | '-' :: rest => (true, rest)
    | l => (false, l)
  let lowerBody := body.map Char.toLower
  if lowerBody = "inf".data ∨ lowerBody = "infinity".data then
    some (if neg then .neginf else .inf)
  else if lowerBody = "nan".data then some .nan
  else
    let signed := fun (q : ℚ) => if neg then -q else q
    match splitFirst ['e'] lowerBody with
    | none => (pyFloatMantissa lowerBody).map (fun m => .finite (signed m))
    | some (mant, ex) => do
      let m ← pyFloatMantissa mant
      let e ← pyFloatExponent ex
      pure (.finite (signed (m * (10 : ℚ) ^ e)))

/-- Model of `SwarmAdapter._convert_swarm_confidence`: numeric threshold mapping. -/
def convert_swarm_confidence (confidence : ℚ) : DecisionConfidence :=
  if confidence < 0.4 then .LOW
  else if confidence < 0.7 then .MEDIUM
  else .HIGH

/-- Model of `EnhancedAgent._determine_confidence`: lexical-heuristic classifier
over the lowercased response text. -/
def determine_confidence (text : String) : DecisionConfidence :=
  let lower := pyLower text
  if strContains lower "uncertain" || strContains lower "unclear" then .LOW
  else if strContains lower "likely" || strContains lower "probably" then
    .MEDIUM
  else .HIGH

/-- The numerator text whose `int()` the `Feasibility:` branch of
`EnhancedAgent._parse_alternatives` attempts: the part before the first
`/` when one occurs, else the part before `out of` when it occurs, else
the whole text (`text.split(sep)[0]` is `(pySplit text sep).headD ""`). -/
def feasibilityNumerator (feasibility_text : String) : String :=
  if strContains feasibility_text "/" then
    pyStrip ((pySplit feasibility_text "/").headD "")
  else if strContains feasibility_text "out of" then
    pyStrip ((pySplit feasibility_text "out of").headD "")
  else feasibility_text

/-- The `Feasibility:` branch of `EnhancedAgent._parse_alternatives`
applied to the already-stripped text after the colon: any
`ValueError`/`IndexError` inside the `try` falls back to the default 5. -/
def parseFeasibility (feasibility_text : String) : Int :=
  (pyInt (feasibilityNumerator feasibility_text)).getD 5

/-- Result record of `EnhancedAgent._parse_final_decision`. -/
structure FinalDecision where
  decision : String
  confidence : PyFloatVal
  reasoning : String
deriving DecidableEq

/-- The body of the line loop of `_parse_final_decision`: a `Decision:`
line stores the stripped text after the first colon, a `Confidence:`
line stores `float(...)` of it (resetting to the 0.0 default when the
conversion raises `ValueError`), a `Reasoning:` line stores the stripped
text, any other line leaves the record unchanged. -/
def parseDecisionLine (acc : FinalDecision) (line : String) : FinalDecision :=
  if startsWithStr line "Decision:" then
    { acc with decision := pyStrip (afterFirstColon line) }
  else if startsWithStr line "Confidence:" then
    { acc with confidence :=
        (pyFloat (pyStrip (afterFirstColon line))).getD (.finite 0) }
  else if startsWithStr line "Reasoning:" then
    { acc with reasoning := pyStrip (afterFirstColon line) }
  else acc

/-- Model of `EnhancedAgent._parse_final_decision`: fold the line loop over the
lines of the decision text, starting from the empty/0.0 defaults. -/
def parse_final_decision (decision_text : String) : FinalDecision :=
  (pySplit decision_text "\n").foldl parseDecisionLine
    { decision := "", confidence := .finite 0, reasoning := "" }

/-- A line is harmless for the [0,1] confidence invariant: it is not a
`Confidence:` line, or its value fails to convert as a float (the parser
then resets the 0.0 default), or the converted value — finite, infinite
or `nan` — lies in [0,1]. -/
def confLineOK (line : String) : Bool :=
  !(startsWithStr line "Confidence:") ||
    (match pyFloat (pyStrip (afterFirstColon line)) with
     | some v => v.inUnit
     | none => true)

/-- Python `s.upper()` restricted to ASCII letters. -/
def pyUpper (s : String) : String :=
  ⟨s.data.map Char.toUpper⟩

/-- Model of `GenericAgentAdapter._determine_confidence` (adapters/base.py):
returns the step's `confidence` field uppercased when it reads as a
level, otherwise the MEDIUM default. -/
def generic_determine_confidence (step_confidence : String) : String :=
  let c := pyUpper step_confidence
  if c = "LOW" ∨ c = "MEDIUM" ∨ c = "HIGH" then c else "MEDIUM"

/-- The shapes of `agent_output` that
`GenericAgentAdapter.convert_to_decision_path` distinguishes, restricted
to the fields that feed `confidence_score`: a dict carrying a
`decision` key (with an optional numeric `confidence`), a dict without
one, or a plain string. -/
inductive AgentOutput where
  | dictWithDecision (decision : String) (confidence : Option ℚ)
  | dictNoDecision
  | strOutput (s : String)

/-- The `confidence_score` of the `DecisionPath` built by
`GenericAgentAdapter.convert_to_decision_path`: the field default 0.0,
overwritten by `agent_output.get("confidence", 0.0)` when the dict has a
`decision` key, or by the literal 0.5 for a string output. -/
def generic_confidence_score (agent_output : AgentOutput) : ℚ :=
  match agent_output with
  | .dictWithDecision _ confidence => confidence.getD 0
  | .dictNoDecision => 0
  | .strOutput _ => 0.5

/-- Start timestamp of a stored session, `none` when the id is absent. -/
def sessStart (st : ObserverState) (sid : String) : Option Nat :=
  (lookupSession st.observations sid).map (fun s => s.start_time)

/-- End timestamp of a stored session, `none` when the id is absent or
the session is still open. -/
def sessEnd (st : ObserverState) (sid : String) : Option Nat :=
  (lookupSession st.observations sid).bind (fun s => s.end_time)

/-- Spec-side expression: arithmetic mean of the `response_time`
metadata values, an absent key counting as 0. -/
def meanResponseTime (decisions : List Decision) : ℚ :=
  ((decisions.map (fun d => d.metadata.response_time.getD 0)).sum) /
    (decisions.length : ℚ)

/-- Spec-side expression: arithmetic mean of the `token_usage` metadata
values, an absent key counting as 0. -/
def meanTokenUsage (decisions : List Decision) : ℚ :=
  ((decisions.map (fun d => d.metadata.token_usage.getD 0)).sum) /
    (decisions.length : ℚ)

/-- Spec-side expression: `100 * successes / decision_count`. -/
def successPercentage (decisions : List Decision) : ℚ :=
  100 * ((decisions.countP (fun d => d.metadata.success.getD false) : ℚ)) /
    (decisions.length : ℚ)

/-- The spec's scenario data: two decisions by `agentA`, one successful
with response time 1, one failed with response time 3. -/
def sampleSession : SessionData :=
  { start_time := 0, end_time := some 3,
    decisions :=
      [{ timestamp := 1, agent_id := "agentA", inputs := [], outputs := [],
         metadata := { response_time := some 1, token_usage := none,
                       success := some true } },
       { timestamp := 2, agent_id := "agentA", inputs := [], outputs := [],
         metadata := { response_time := some 3, token_usage := none,
                       success := some false } }],
    metrics := {} }

/-- A store holding only the spec's scenario session under id `s1`. -/
def sampleState : ObserverState :=
  { observations := [("s1", sampleSession)], current_session := none,
    clock := 4 }

/-! ### Helper lemmas -/

theorem lookup_insert_self (obs : List (String × SessionData)) (k : String)
    (v : SessionData) : lookupSession (insertSession obs k v) k = some v := by
  induction obs with
  | nil => simp [insertSession, lookupSession]
  | cons hd rest ih =>
    obtain ⟨k', v'⟩ := hd
    by_cases h : k' = k <;> simp [insertSession, lookupSession, h, ih]

theorem lookup_insert_ne (obs : List (String × SessionData)) (k k' : String)
    (v : SessionData) (h : k' ≠ k) :
    lookupSession (insertSession obs k v) k' = lookupSession obs k' := by
  induction obs with
  | nil =>
    simp only [insertSession, lookupSession]
    rw [if_neg (fun hkk => h hkk.symm)]
  | cons hd rest ih =>
    obtain ⟨a, b⟩ := hd
    simp only [insertSession]
    by_cases ha : a = k
    · rw [if_pos ha]
      simp only [lookupSession]
      rw [if_neg (ha ▸ fun hkk => h hkk.symm),
        if_neg (ha ▸ fun hkk => h hkk.symm)]
    · rw [if_neg ha]
      simp only [lookupSession]
      by_cases ha' : a = k'
      · rw [if_pos ha', if_pos ha']
      · rw [if_neg ha', if_neg ha', ih]

theorem pyTruthy_some_iff (s : String) : pyTruthy (some s) = true ↔ s ≠ "" := by
  constructor
  · intro h he
    subst he
    have hfalse : pyTruthy (some "") = false := by decide
    rw [hfalse] at h
    cases h
  · intro h
    simp only [pyTruthy, Bool.not_eq_true']
    cases hb : s.isEmpty with
    | false => rfl
    | true => exact absurd ((String.isEmpty_iff s).mp hb) h

theorem resolve_ne_empty (name : Option String) (uuid : String)
    (h : uuid ≠ "") : resolveSessionId name uuid ≠ "" := by
  cases name with
  | none => exact h
  | some s =>
    simp only [resolveSessionId]
    by_cases hs : s.isEmpty
    · rw [if_pos hs]
      exact h
    · rw [if_neg hs]
      intro he
      exact hs ((String.isEmpty_iff s).mpr he)

theorem openSession_eq (st : ObserverState) (name : Option String)
    (uuid : String) :
    openSession st name uuid =
      { observations := insertSession st.observations
          (resolveSessionId name uuid)
          { start_time := st.clock, end_time := none, decisions := [],
            metrics := {} },
        current_session := some (resolveSessionId name uuid),
        clock := st.clock + 1 } := rfl

theorem track_falsy (st : ObserverState) (a : String) (i o : Payload)
    (m : Option Metadata) (h : pyTruthy st.current_session = false) :
    track_decision st a i o m = (st, some noActiveSessionMsg) := by
  unfold track_decision
  simp [h]

theorem track_found (st : ObserverState) (a : String) (i o : Payload)
    (m : Option Metadata) (sid : String) (sess : SessionData)
    (hc : st.current_session = some sid) (hs : sid ≠ "")
    (hl : lookupSession st.observations sid = some sess) :
    track_decision st a i o m =
      ({ observations := insertSession st.observations sid
           { sess with decisions := sess.decisions ++
               [{ timestamp := st.clock, agent_id := a, inputs := i,
                  outputs := o, metadata := m.getD Metadata.empty }] },
         current_session := some sid, clock := st.clock + 1 }, none) := by
  unfold track_decision
  rw [hc]
  rw [if_pos ((pyTruthy_some_iff sid).mpr hs)]
  simp [tick, hl, hc]

theorem track_pres_current (st : ObserverState) (a : String) (i o : Payload)
    (m : Option Metadata) :
    (track_decision st a i o m).1.current_session = st.current_session := by
  unfold track_decision
  by_cases h : pyTruthy st.current_session = true
  · rw [if_pos h]
    cases hc : st.current_session with
    | none => simpa using hc
    | some sid =>
      simp only [tick]
      cases lookupSession st.observations sid <;> simp [hc]
  · rw [if_neg h]

theorem track_clock_mono (st : ObserverState) (a : String) (i o : Payload)
    (m : Option Metadata) :
    st.clock ≤ (track_decision st a i o m).1.clock := by
  unfold track_decision
  by_cases h : pyTruthy st.current_session = true
  · rw [if_pos h]
    cases hc : st.current_session with
    | none => simp
    | some sid =>
      simp only [tick]
      cases lookupSession st.observations sid <;> simp
  · rw [if_neg h]

theorem track_pres_session (st : ObserverState) (a : String) (i o : Payload)
    (m : Option Metadata) (k : String) (sess : SessionData)
    (hl : lookupSession st.observations k = some sess) :
    ∃ sess', lookupSession (track_decision st a i o m).1.observations k =
        some sess' ∧ sess'.start_time = sess.start_time ∧
        sess'.end_time = sess.end_time := by
  unfold track_decision
  by_cases h : pyTruthy st.current_session = true
  · rw [if_pos h]
    cases hc : st.current_session with
    | none => exact ⟨sess, hl, rfl, rfl⟩
    | some sid =>
      simp only [tick]
      cases hsid : lookupSession st.observations sid with
      | none => exact ⟨sess, hl, rfl, rfl⟩
      | some s0 =>
        by_cases hk : k = sid
        · subst hk
          rw [hl] at hsid
          cases hsid
          exact ⟨_, lookup_insert_self _ _ _, rfl, rfl⟩
        · exact ⟨sess, (lookup_insert_ne _ _ _ _ hk).trans hl, rfl, rfl⟩
  · rw [if_neg h]
    exact ⟨sess, hl, rfl, rfl⟩

theorem runBody_pres_current (st : ObserverState) (reqs : List TrackReq) :
    (runBody st reqs).1.current_session = st.current_session := by
  induction reqs generalizing st with
  | nil => rfl
  | cons r rest ih =>
    unfold runBody
    cases htr : track_decision st r.agent_id r.inputs r.outputs r.metadata with
    | mk st' err =>
      cases err with
      | none =>
        have := track_pres_current st r.agent_id r.inputs r.outputs r.metadata
        rw [htr] at this
        simpa [ih st'] using this
      | some msg =>
        have := track_pres_current st r.agent_id r.inputs r.outputs r.metadata
        rw [htr] at this
        simpa using this

theorem runBody_clock_mono (st : ObserverState) (reqs : List TrackReq) :
    st.clock ≤ (runBody st reqs).1.clock := by
  induction reqs generalizing st with
  | nil => exact le_refl _
  | cons r rest ih =>
    unfold runBody
    cases htr : track_decision st r.agent_id r.inputs r.outputs r.metadata with
    | mk st' err =>
      have hm := track_clock_mono st r.agent_id r.inputs r.outputs r.metadata
      rw [htr] at hm
      cases err with
      | none => exact le_trans hm (ih st')
      | some msg => exact hm

theorem runBody_pres_session (st : ObserverState) (reqs : List TrackReq)
    (k : String) (sess : SessionData)
    (hl : lookupSession st.observations k = some sess) :
    ∃ sess', lookupSession (runBody st reqs).1.observations k = some sess' ∧
      sess'.start_time = sess.start_time ∧ sess'.end_time = sess.end_time := by
  induction reqs generalizing st sess with
  | nil => exact ⟨sess, hl, rfl, rfl⟩
  | cons r rest ih =>
    unfold runBody
    cases htr : track_decision st r.agent_id r.inputs r.outputs r.metadata with
    | mk st' err =>
      have hp := track_pres_session st r.agent_id r.inputs r.outputs
        r.metadata k sess hl
      rw [htr] at hp
      obtain ⟨sess', hl', hstart, hend⟩ := hp
      cases err with
      | none =>
        obtain ⟨sess'', hl'', hstart', hend'⟩ := ih st' sess' hl'
        exact ⟨sess'', hl'', hstart'.trans hstart, hend'.trans hend⟩
      | some msg => exact ⟨sess', hl', hstart, hend⟩

theorem closeScope_found (st : ObserverState) (sid : String)
    (sess : SessionData) (hc : st.current_session = some sid) (hs : sid ≠ "")
    (hl : lookupSession st.observations sid = some sess) :
    closeScope st =
      { observations := insertSession st.observations sid
          { sess with end_time := some st.clock },
        current_session := none, clock := st.clock + 1 } := by
  unfold closeScope
  rw [hc]
  rw [if_pos ((pyTruthy_some_iff sid).mpr hs)]
  simp [tick, hl]

theorem closeScope_falsy (st : ObserverState)
    (h : pyTruthy st.current_session = false) : closeScope st = st := by
  unfold closeScope
  simp [h]

theorem closeScope_notfound (st : ObserverState) (sid : String)
    (hc : st.current_session = some sid) (hs : sid ≠ "")
    (hl : lookupSession st.observations sid = none) :
    closeScope st = { st with clock := st.clock + 1 } := by
  unfold closeScope
  rw [hc]
  rw [if_pos ((pyTruthy_some_iff sid).mpr hs)]
  simp [tick, hl, hc]

theorem track_notfound (st : ObserverState) (a : String) (i o : Payload)
    (m : Option Metadata) (sid : String)
    (hc : st.current_session = some sid) (hs : sid ≠ "")
    (hl : lookupSession st.observations sid = none) :
    track_decision st a i o m =
      ({ st with clock := st.clock + 1 }, some ("KeyError: " ++ sid)) := by
  unfold track_decision
  rw [hc]
  rw [if_pos ((pyTruthy_some_iff sid).mpr hs)]
  simp [tick, hl, hc]

/-- Session ids are always truthy strings (`session_name or uuid` with a
non-empty uuid), so the empty string is never a key of the registry in
any reachable state. -/
theorem reachable_no_empty_key {st : ObserverState} (h : Reachable st) :
    lookupSession st.observations "" = none := by
  induction h with
  | init => rfl
  | @openStep st name uuid _ hu ih =>
    rw [openSession_eq]
    exact (lookup_insert_ne _ _ _ _
      (Ne.symm (resolve_ne_empty name uuid hu))).trans ih
  | @closeStep st _ ih =>
    by_cases hp : pyTruthy st.current_session = true
    · cases hc : st.current_session with
      | none =>
        rw [hc] at hp
        exact absurd hp (by decide)
      | some sid =>
        have hs : sid ≠ "" := (pyTruthy_some_iff sid).mp (hc ▸ hp)
        cases hl : lookupSession st.observations sid with
        | none =>
          rw [closeScope_notfound st sid hc hs hl]
          exact ih
        | some sess =>
          rw [closeScope_found st sid sess hc hs hl]
          exact (lookup_insert_ne _ _ _ _ (Ne.symm hs)).trans ih
    · rw [closeScope_falsy st (Bool.not_eq_true _ ▸ hp)]
      exact ih
  | @trackStep st a i o m _ ih =>
    by_cases hp : pyTruthy st.current_session = true
    · cases hc : st.current_session with
      | none =>
        rw [hc] at hp
        exact absurd hp (by decide)
      | some sid =>
        have hs : sid ≠ "" := (pyTruthy_some_iff sid).mp (hc ▸ hp)
        cases hl : lookupSession st.observations sid with
        | none =>
          rw [track_notfound st a i o m sid hc hs hl]
          exact ih
        | some sess =>
          rw [track_found st a i o m sid sess hc hs hl]
          exact (lookup_insert_ne _ _ _ _ (Ne.symm hs)).trans ih
    · rw [track_falsy st a i o m (Bool.not_eq_true _ ▸ hp)]
      exact ih

/-- Every stored session started strictly before the present clock
value, and a recorded end timestamp is never earlier than the start. -/
theorem reachable_time_invariant {st : ObserverState} (h : Reachable st) :
    ∀ k sess, lookupSession st.observations k = some sess →
      sess.start_time < st.clock ∧
      ∀ te, sess.end_time = some te → sess.start_time ≤ te := by
  induction h with
  | init =>
    intro k sess hk
    cases hk
  | @openStep st name uuid _ hu ih =>
    intro k sess hk
    rw [openSession_eq] at hk
    by_cases hkeq : k = resolveSessionId name uuid
    · subst hkeq
      rw [lookup_insert_self] at hk
      cases hk
      refine ⟨Nat.lt_succ_self _, ?_⟩
      intro te hte
      cases hte
    · rw [lookup_insert_ne _ _ _ _ hkeq] at hk
      obtain ⟨h1, h2⟩ := ih k sess hk
      exact ⟨Nat.lt_succ_of_lt h1, h2⟩
  | @closeStep st _ ih =>
    intro k sess hk
    by_cases hp : pyTruthy st.current_session = true
    · cases hc : st.current_session with
      | none =>
        rw [hc] at hp
        exact absurd hp (by decide)
      | some sid =>
        have hs : sid ≠ "" := (pyTruthy_some_iff sid).mp (hc ▸ hp)
        cases hl : lookupSession st.observations sid with
        | none =>
          rw [closeScope_notfound st sid hc hs hl] at hk ⊢
          obtain ⟨h1, h2⟩ := ih k sess hk
          exact ⟨Nat.lt_succ_of_lt h1, h2⟩
        | some sess0 =>
          rw [closeScope_found st sid sess0 hc hs hl] at hk ⊢
          by_cases hkeq : k = sid
          · subst hkeq
            rw [lookup_insert_self] at hk
            cases hk
            obtain ⟨h1, _h2⟩ := ih k sess0 hl
            refine ⟨Nat.lt_succ_of_lt h1, ?_⟩
            intro te hte
            cases hte
            exact Nat.le_of_lt h1
          · rw [lookup_insert_ne _ _ _ _ hkeq] at hk
            obtain ⟨h1, h2⟩ := ih k sess hk
            exact ⟨Nat.lt_succ_of_lt h1, h2⟩
    · rw [closeScope_falsy st (Bool.not_eq_true _ ▸ hp)] at hk ⊢
      exact ih k sess hk
  | @trackStep st a i o m _ ih =>
    intro k sess hk
    by_cases hp : pyTruthy st.current_session = true
    · cases hc : st.current_session with
      | none =>
        rw [hc] at hp
        exact absurd hp (by decide)
      | some sid =>
        have hs : sid ≠ "" := (pyTruthy_some_iff sid).mp (hc ▸ hp)
        cases hl : lookupSession st.observations sid with
        | none =>
          rw [track_notfound st a i o m sid hc hs hl] at hk ⊢
          obtain ⟨h1, h2⟩ := ih k sess hk
          exact ⟨Nat.lt_succ_of_lt h1, h2⟩
        | some sess0 =>
          rw [track_found st a i o m sid sess0 hc hs hl] at hk ⊢
          by_cases hkeq : k = sid
          · subst hkeq
            rw [lookup_insert_self] at hk
            cases hk
            obtain ⟨h1, h2⟩ := ih k sess0 hl
            exact ⟨Nat.lt_succ_of_lt h1, h2⟩
          · rw [lookup_insert_ne _ _ _ _ hkeq] at hk
            obtain ⟨h1, h2⟩ := ih k sess hk
            exact ⟨Nat.lt_succ_of_lt h1, h2⟩
    · rw [track_falsy st a i o m (Bool.not_eq_true _ ▸ hp)] at hk ⊢
      exact ih k sess hk

/-- The totals loop of `_calculate_averages` accumulates the sum of the
`response_time` values, the sum of the `token_usage` values, and the
number of records whose `success` flag reads true. -/
theorem totals_foldl (decisions : List Decision) (a b c : ℚ) :
    decisions.foldl
      (fun (t : ℚ × ℚ × ℚ) d =>
        (t.1 + d.metadata.response_time.getD 0,
         t.2.1 + d.metadata.token_usage.getD 0,
         t.2.2 + if d.metadata.success.getD false then 1 else 0))
      (a, b, c) =
      (a + (decisions.map (fun d => d.metadata.response_time.getD 0)).sum,
       b + (decisions.map (fun d => d.metadata.token_usage.getD 0)).sum,
       c + (decisions.countP (fun d => d.metadata.success.getD false) : ℚ)) := by
  induction decisions generalizing a b c with
  | nil => simp
  | cons d ds ih =>
    simp only [List.foldl_cons, List.map_cons, List.sum_cons,
      List.countP_cons, ih]
    refine Prod.ext ?_ (Prod.ext ?_ ?_) <;> simp <;> push_cast <;> ring

/-- Lemma: `_calculate_averages` on a non-empty decision sequence yields the
arithmetic means and the success percentage. -/
theorem calculate_averages_spec (decisions : List Decision)
    (h : decisions ≠ []) :
    calculate_averages decisions =
      { avg_response_time := meanResponseTime decisions,
        avg_token_usage := meanTokenUsage decisions,
        success_rate := successPercentage decisions } := by
  unfold calculate_averages meanResponseTime meanTokenUsage successPercentage
  rw [if_neg h, totals_foldl]
  simp only [zero_add]
  congr 1
  ring

/-! ### Claim theorems -/

/-- C1: when no session is current, `track_decision` (with any agent id,
inputs, outputs and metadata) raises the "no active session"
precondition error and returns the observer state unchanged — in
particular it creates no implicit session and appends no decision
record. -/
theorem C1_track_without_session_fails (st : ObserverState)
    (agent_id : String) (inputs outputs : Payload)
    (metadata : Option Metadata) (h : st.current_session = none) :
    track_decision st agent_id inputs outputs metadata =
      (st, some noActiveSessionMsg) := by
  apply track_falsy
  rw [h]
  rfl

theorem C1_witness :
    track_decision initState "agentA" [] [] none =
      (initState, some noActiveSessionMsg) :=
  C1_track_without_session_fails initState "agentA" [] [] none rfl

/-- C5: requesting metrics for a session identifier that is not in the
store fails with the "session not found" error; no partial or default
metrics value is produced. -/
theorem C5_metrics_unknown_session_fails (st : ObserverState)
    (session_id : String)
    (h : lookupSession st.observations session_id = none) :
    get_session_metrics st session_id =
      .error ("Session " ++ session_id ++ " not found") := by
  unfold get_session_metrics
  rw [h]

theorem C5_witness :
    get_session_metrics initState "missing" =
      .error "Session missing not found" :=
  C5_metrics_unknown_session_fails initState "missing" rfl

/-- C3: metrics of a session with an empty decision sequence are the
found session's duration together with `decision_count = 0`, the empty
agent set, and exactly the zero-valued averages structure — no division
by zero occurs. -/
theorem C3_metrics_empty_session (st : ObserverState) (session_id : String)
    (sess : SessionData)
    (h1 : lookupSession st.observations session_id = some sess)
    (h2 : sess.decisions = []) :
    get_session_metrics st session_id =
      .ok { duration := ((sess.end_time.getD st.clock : Nat) : Int) -
              (sess.start_time : Int),
            decision_count := 0, agents := ∅,
            averages := { avg_response_time := 0, avg_token_usage := 0,
                          success_rate := 0 } } := by
  unfold get_session_metrics
  rw [h1]
  simp [h2, calculate_averages]

theorem C3_witness :
    get_session_metrics
        (closeScope (openSession initState (some "s1") "u")) "s1" =
      .ok { duration := 1, decision_count := 0, agents := ∅,
            averages := { avg_response_time := 0, avg_token_usage := 0,
                          success_rate := 0 } } := by
  have h := C3_metrics_empty_session
    (closeScope (openSession initState (some "s1") "u")) "s1"
    { start_time := 0, end_time := some 1, decisions := [], metrics := {} }
    (by decide) rfl
  simpa using h

/-- C10: opening a session under a name that is already the identifier
of a stored session silently replaces the stored session with a fresh
one — start timestamp "now", no end timestamp, empty decision sequence —
discarding whatever was recorded under that name, and makes the name
current; no uniqueness check is performed. -/
theorem C10_reopen_name_replaces_session (st : ObserverState) (n : String)
    (old : SessionData) (uuid : String) (hr : Reachable st)
    (h : lookupSession st.observations n = some old) :
    lookupSession (openSession st (some n) uuid).observations n =
        some { start_time := st.clock, end_time := none, decisions := [],
               metrics := {} } ∧
    (openSession st (some n) uuid).current_session = some n := by
  have hne : n ≠ "" := by
    intro he
    rw [he, reachable_no_empty_key hr] at h
    cases h
  have hres : resolveSessionId (some n) uuid = n := by
    simp only [resolveSessionId]
    rw [if_neg (fun hiseq => hne ((String.isEmpty_iff n).mp hiseq))]
  rw [openSession_eq, hres]
  exact ⟨lookup_insert_self _ _ _, rfl⟩

/-- C2: metrics of a session with a non-empty decision sequence carry
the arithmetic mean of the records' `response_time` (an absent key
counting as 0), the arithmetic mean of `token_usage` (absent counting as
0), and `success_rate = 100 * successes / decision_count`, a value
bounded in [0, 100]. -/
theorem C2_metrics_averages (st : ObserverState) (session_id : String)
    (sess : SessionData)
    (h1 : lookupSession st.observations session_id = some sess)
    (h2 : sess.decisions ≠ []) :
    get_session_metrics st session_id =
      .ok { duration := ((sess.end_time.getD st.clock : Nat) : Int) -
              (sess.start_time : Int),
            decision_count := sess.decisions.length,
            agents := (sess.decisions.map (fun d => d.agent_id)).toFinset,
            averages := { avg_response_time := meanResponseTime sess.decisions,
                          avg_token_usage := meanTokenUsage sess.decisions,
                          success_rate := successPercentage sess.decisions } } ∧
    0 ≤ successPercentage sess.decisions ∧
    successPercentage sess.decisions ≤ 100 := by
  have hlen : 0 < (sess.decisions.length : ℚ) := by
    have := List.length_pos.mpr h2
    exact_mod_cast this
  refine ⟨?_, ?_, ?_⟩
  · unfold get_session_metrics
    rw [h1]
    simp only [calculate_averages_spec sess.decisions h2]
  · unfold successPercentage
    positivity
  · unfold successPercentage
    rw [div_le_iff hlen]
    have hcle : ((sess.decisions.countP
        (fun d => d.metadata.success.getD false) : ℚ)) ≤
        (sess.decisions.length : ℚ) := by
      exact_mod_cast List.countP_le_length _
    linarith

theorem C2_witness :
    get_session_metrics sampleState "s1" =
      .ok { duration := 3, decision_count := 2, agents := {"agentA"},
            averages := { avg_response_time := 2, avg_token_usage := 0,
                          success_rate := 50 } } ∧
    (0 : ℚ) ≤ 50 ∧ (50 : ℚ) ≤ 100 := by
  obtain ⟨heq, -, -⟩ := C2_metrics_averages sampleState "s1" sampleSession
    (by decide) (by decide)
  refine ⟨?_, by norm_num, by norm_num⟩
  rw [heq]
  norm_num [sampleSession, meanResponseTime, meanTokenUsage,
    successPercentage, List.countP_cons, List.countP_nil]

/-- C4: a session opened through the scope has its end timestamp
recorded and the current-session pointer cleared on every exit path —
normal completion, an early stop, or an error raised by the enclosed
tracking work (both captured by the executed request list and the body's
abort flag) — with the end timestamp taken at exit, hence never earlier
than the session's start timestamp; and in every reachable state a
closed session satisfies `end_timestamp ≥ start_timestamp`. -/
theorem C4_scope_always_closes :
    (∀ (st : ObserverState) (name : Option String) (uuid : String)
        (reqs : List TrackReq), uuid ≠ "" →
      (sessionScope st name uuid reqs).current_session = none ∧
      sessStart (sessionScope st name uuid reqs)
          (resolveSessionId name uuid) = some st.clock ∧
      sessEnd (sessionScope st name uuid reqs)
          (resolveSessionId name uuid) =
        some (runBody (openSession st name uuid) reqs).1.clock ∧
      st.clock ≤ (runBody (openSession st name uuid) reqs).1.clock) ∧
    (∀ st : ObserverState, Reachable st →
      ∀ (k : String) (sess : SessionData) (te : Nat),
        lookupSession st.observations k = some sess →
        sess.end_time = some te → sess.start_time ≤ te) := by
  constructor
  · intro st name uuid reqs h
    have hsid : resolveSessionId name uuid ≠ "" := resolve_ne_empty name uuid h
    have hc1 : (openSession st name uuid).current_session =
        some (resolveSessionId name uuid) := by
      rw [openSession_eq]
    have hl1 : lookupSession (openSession st name uuid).observations
        (resolveSessionId name uuid) =
        some { start_time := st.clock, end_time := none, decisions := [],
               metrics := {} } := by
      rw [openSession_eq]
      exact lookup_insert_self _ _ _
    have hclk1 : (openSession st name uuid).clock = st.clock + 1 := by
      rw [openSession_eq]
    rcases hrb : runBody (openSession st name uuid) reqs with ⟨st2, ok⟩
    have hc2 : st2.current_session = some (resolveSessionId name uuid) := by
      have hp := runBody_pres_current (openSession st name uuid) reqs
      rw [hrb] at hp
      exact hp.trans hc1
    have hps := runBody_pres_session (openSession st name uuid) reqs
      (resolveSessionId name uuid) _ hl1
    rw [hrb] at hps
    obtain ⟨sess2, hl2, hstart2, _hend2⟩ := hps
    have hclk2 : st.clock + 1 ≤ st2.clock := by
      have hm := runBody_clock_mono (openSession st name uuid) reqs
      rw [hrb, hclk1] at hm
      exact hm
    have hfinal : sessionScope st name uuid reqs = closeScope st2 := by
      simp only [sessionScope]
      rw [hrb]
    rw [hfinal, closeScope_found st2 _ sess2 hc2 hsid hl2]
    refine ⟨rfl, ?_, ?_, ?_⟩
    · unfold sessStart
      rw [lookup_insert_self]
      simpa using hstart2
    · unfold sessEnd
      rw [lookup_insert_self]
      rfl
    · exact Nat.le_of_succ_le hclk2
  · intro st hr k sess te hk hte
    exact ((reachable_time_invariant hr) k sess hk).2 te hte

theorem C4_witness :
    ((sessionScope initState (some "s1") "u" []).current_session = none ∧
     sessStart (sessionScope initState (some "s1") "u" []) "s1" = some 0 ∧
     sessEnd (sessionScope initState (some "s1") "u" []) "s1" =
       some (runBody (openSession initState (some "s1") "u") []).1.clock ∧
     (0 : Nat) ≤ (runBody (openSession initState (some "s1") "u") []).1.clock) ∧
    (0 : Nat) ≤ 1 := by
  refine ⟨?_, ?_⟩
  · exact C4_scope_always_closes.1 initState (some "s1") "u" [] (by decide)
  · exact C4_scope_always_closes.2
      (closeScope (openSession initState (some "s1") "u"))
      (Reachable.closeStep (Reachable.openStep Reachable.init (by decide)))
      "s1"
      { start_time := 0, end_time := some 1, decisions := [], metrics := {} }
      1 (by decide) rfl

/-- C6: the numeric threshold mapping returns LOW below 0.4, MEDIUM
from 0.4 up to (excluding) 0.7, and HIGH from 0.7 on; in particular
0.3 maps to LOW, 0.5 to MEDIUM, 0.8 to HIGH, exactly 0.4 to MEDIUM and
exactly 0.7 to HIGH. -/
theorem C6_swarm_confidence_thresholds :
    (∀ c : ℚ, c < 0.4 → convert_swarm_confidence c = .LOW) ∧
    (∀ c : ℚ, 0.4 ≤ c → c < 0.7 → convert_swarm_confidence c = .MEDIUM) ∧
    (∀ c : ℚ, 0.7 ≤ c → convert_swarm_confidence c = .HIGH) ∧
    convert_swarm_confidence 0.3 = .LOW ∧
    convert_swarm_confidence 0.5 = .MEDIUM ∧
    convert_swarm_confidence 0.8 = .HIGH ∧
    convert_swarm_confidence 0.4 = .MEDIUM ∧
    convert_swarm_confidence 0.7 = .HIGH := by
  refine ⟨?_, ?_, ?_, ?_, ?_, ?_, ?_, ?_⟩
  · intro c h
    unfold convert_swarm_confidence
    rw [if_pos h]
  · intro c h1 h2
    unfold convert_swarm_confidence
    rw [if_neg (not_lt.mpr h1), if_pos h2]
  · intro c h
    unfold convert_swarm_confidence
    rw [if_neg (not_lt.mpr (le_trans (by norm_num) h)),
      if_neg (not_lt.mpr h)]
  all_goals norm_num [convert_swarm_confidence]

theorem C6_witness :
    convert_swarm_confidence 0.2 = .LOW ∧
    convert_swarm_confidence 0.55 = .MEDIUM ∧
    convert_swarm_confidence 0.9 = .HIGH :=
  ⟨C6_swarm_confidence_thresholds.1 0.2 (by norm_num),
   C6_swarm_confidence_thresholds.2.1 0.55 (by norm_num) (by norm_num),
   C6_swarm_confidence_thresholds.2.2.1 0.9 (by norm_num)⟩

/-- C7: feasibility parsing is total and best-effort — `"8/10"` parses
to 8, `"N out of 10"` variants parse to N, and any text whose selected
numerator fails integer conversion falls back to the default 5 instead
of failing the conversion. -/
theorem C7_parse_feasibility :
    parseFeasibility "8/10" = 8 ∧
    parseFeasibility "8 out of 10" = 8 ∧
    parseFeasibility "9 out of 10" = 9 ∧
    parseFeasibility "high" = 5 ∧
    (∀ t : String, pyInt (feasibilityNumerator t) = none →
      parseFeasibility t = 5) := by
  refine ⟨by decide, by decide, by decide, by decide, ?_⟩
  intro t h
  unfold parseFeasibility
  rw [h]
  rfl

theorem C7_witness : parseFeasibility "unknown" = 5 :=
  C7_parse_feasibility.2.2.2.2 "unknown" (by decide)

/-- C8 counterexample: the text `"hello"` contains neither hedging term,
yet the classifier returns HIGH — so MEDIUM is not the default for
keyword-free text, contradicting the claim. -/
theorem C8_counterexample :
    strContains (pyLower "hello") "uncertain" = false ∧
    strContains (pyLower "hello") "unclear" = false ∧
    determine_confidence "hello" = DecisionConfidence.HIGH ∧
    determine_confidence "hello" ≠ DecisionConfidence.MEDIUM := by
  refine ⟨by decide, by decide, by decide, by decide⟩

/-- C8 (amended): the lexical classifier returns LOW when the lowercased
text contains "uncertain" or "unclear", MEDIUM when it contains neither
but contains "likely" or "probably", and HIGH otherwise — HIGH, not
MEDIUM, is the default for keyword-free text. -/
theorem C8_lexical_classifier (text : String) :
    ((strContains (pyLower text) "uncertain" = true ∨
      strContains (pyLower text) "unclear" = true) →
      determine_confidence text = .LOW) ∧
    (strContains (pyLower text) "uncertain" = false →
      strContains (pyLower text) "unclear" = false →
      (strContains (pyLower text) "likely" = true ∨
       strContains (pyLower text) "probably" = true) →
      determine_confidence text = .MEDIUM) ∧
    (strContains (pyLower text) "uncertain" = false →
      strContains (pyLower text) "unclear" = false →
      strContains (pyLower text) "likely" = false →
      strContains (pyLower text) "probably" = false →
      determine_confidence text = .HIGH) := by
  unfold determine_confidence
  refine ⟨fun h => ?_, fun h1 h2 h3 => ?_, fun h1 h2 h3 h4 => ?_⟩
  · rcases h with h | h <;> simp [h]
  · rcases h3 with h3 | h3 <;> simp [h1, h2, h3]
  · simp [h1, h2, h3, h4]

theorem C8_witness :
    determine_confidence "the outlook is unclear" = .LOW ∧
    determine_confidence "this will likely work" = .MEDIUM ∧
    determine_confidence "hello" = .HIGH :=
  ⟨(C8_lexical_classifier "the outlook is unclear").1 (Or.inr (by decide)),
   (C8_lexical_classifier "this will likely work").2.1 (by decide)
     (by decide) (Or.inl (by decide)),
   (C8_lexical_classifier "hello").2.2 (by decide) (by decide) (by decide)
     (by decide)⟩

/-- C9 counterexample: `_parse_final_decision` applied to the text
`"Confidence: 2.0"` stores the confidence value 2, which is outside
[0, 1] — the parsers never clamp or validate the value.  The accepted
exponent and special forms behave the same way: `"Confidence: 1e5"`
stores 100000 and `"Confidence: inf"` stores infinity. -/
theorem C9_counterexample :
    (parse_final_decision "Confidence: 2.0").confidence =
      PyFloatVal.finite 2 ∧
    (parse_final_decision "Confidence: 2.0").confidence.inUnit = false ∧
    (parse_final_decision "Confidence: 1e5").confidence =
      PyFloatVal.finite 100000 ∧
    (parse_final_decision "Confidence: 1e5").confidence.inUnit = false ∧
    (parse_final_decision "Confidence: inf").confidence =
      PyFloatVal.inf := by
  have h2 : (parse_final_decision "Confidence: 2.0").confidence =
      PyFloatVal.finite 2 := by
    simp [parse_final_decision, parseDecisionLine, pySplit, splitListOn,
      splitListOnAuxF, splitFirst, startsWithStr, afterFirstColon, pyStrip,
      pyFloat, pyFloatMantissa, pyFloatExponent, pyIntDigits, pyFracDigits]
  have h5 : (parse_final_decision "Confidence: 1e5").confidence =
      PyFloatVal.finite 100000 := by
    simp [parse_final_decision, parseDecisionLine, pySplit, splitListOn,
      splitListOnAuxF, splitFirst, startsWithStr, afterFirstColon, pyStrip,
      pyFloat, pyFloatMantissa, pyFloatExponent, pyIntDigits, pyFracDigits]
    norm_num
  have hinf : (parse_final_decision "Confidence: inf").confidence =
      PyFloatVal.inf := by
    simp [parse_final_decision, parseDecisionLine, pySplit, splitListOn,
      splitListOnAuxF, splitFirst, startsWithStr, afterFirstColon, pyStrip,
      pyFloat, pyFloatMantissa, pyFloatExponent, pyIntDigits, pyFracDigits]
  refine ⟨h2, ?_, h5, ?_, hinf⟩
  · rw [h2]
    simp only [PyFloatVal.inUnit, decide_eq_false_iff_not]
    norm_num
  · rw [h5]
    simp only [PyFloatVal.inUnit, decide_eq_false_iff_not]
    norm_num

/-- One step of the line loop keeps the confidence inside [0,1] as long
as the line is confidence-safe. -/
theorem parseDecisionLine_bound (acc : FinalDecision) (line : String)
    (hacc : acc.confidence.inUnit = true)
    (h : confLineOK line = true) :
    (parseDecisionLine acc line).confidence.inUnit = true := by
  unfold parseDecisionLine
  by_cases hd : startsWithStr line "Decision:" = true
  · simpa [hd] using hacc
  · by_cases hcf : startsWithStr line "Confidence:" = true
    · unfold confLineOK at h
      rw [hcf] at h
      simp only [Bool.not_true, Bool.false_or] at h
      rw [if_neg hd, if_pos hcf]
      cases hq : pyFloat (pyStrip (afterFirstColon line)) with
      | none => norm_num [PyFloatVal.inUnit]
      | some v =>
        rw [hq] at h
        simpa using h
    · by_cases hr : startsWithStr line "Reasoning:" = true
      · simpa [hd, hcf, hr] using hacc
      · simpa [hd, hcf, hr] using hacc

/-- Folding the line loop over confidence-safe lines keeps the
confidence inside [0,1]. -/
theorem parse_foldl_bound (lines : List String) (acc : FinalDecision)
    (hacc : acc.confidence.inUnit = true)
    (h : ∀ line ∈ lines, confLineOK line = true) :
    ((lines.foldl parseDecisionLine acc).confidence).inUnit = true := by
  induction lines generalizing acc with
  | nil => simpa using hacc
  | cons l ls ih =>
    rw [List.foldl_cons]
    exact ih (parseDecisionLine acc l)
      (parseDecisionLine_bound acc l hacc (h l (List.mem_cons_self l ls)))
      (fun line hline => h line (List.mem_cons_of_mem l hline))

/-- C9 (amended): the adapters pass numeric confidence through without
clamping or validation; the stored score lies in [0,1] exactly when the
sources do — the final-decision parser keeps the score in [0,1] whenever
every `Confidence:` line whose text converts as a float (including the
exponent, infinity and nan forms) carries a value in [0,1] (the 0.0
reset and default are in range), and the generic adapter's defaults
(0.0, and 0.5 for plain string output) are in range, while a dict
confidence is in range only when the supplied value is. -/
theorem C9_confidence_bounds :
    (∀ decision_text : String,
      (∀ line ∈ pySplit decision_text "\n", confLineOK line = true) →
      ((parse_final_decision decision_text).confidence).inUnit = true) ∧
    (∀ s : String, generic_confidence_score (.strOutput s) = 1 / 2 ∧
      0 ≤ generic_confidence_score (.strOutput s) ∧
      generic_confidence_score (.strOutput s) ≤ 1) ∧
    generic_confidence_score .dictNoDecision = 0 ∧
    (∀ (d : String) (c : Option ℚ), 0 ≤ c.getD 0 → c.getD 0 ≤ 1 →
      0 ≤ generic_confidence_score (.dictWithDecision d c) ∧
      generic_confidence_score (.dictWithDecision d c) ≤ 1) := by
  refine ⟨?_, ?_, rfl, ?_⟩
  · intro decision_text h
    exact parse_foldl_bound _ _ (by norm_num [PyFloatVal.inUnit]) h
  · intro s
    refine ⟨?_, ?_, ?_⟩ <;> norm_num [generic_confidence_score]
  · intro d c h0 h1
    exact ⟨h0, h1⟩

theorem C9_witness :
    ((parse_final_decision "Confidence: maybe").confidence).inUnit = true ∧
    generic_confidence_score (.strOutput "hi") = 1 / 2 ∧
    (0 ≤ generic_confidence_score (.dictWithDecision "buy" (some 1)) ∧
      generic_confidence_score (.dictWithDecision "buy" (some 1)) ≤ 1) :=
  ⟨C9_confidence_bounds.1 "Confidence: maybe" (by decide),
   (C9_confidence_bounds.2.1 "hi").1,
   C9_confidence_bounds.2.2.2 "buy" (some 1) (by simp) (by simp)⟩

theorem C10_witness :
    lookupSession
        (openSession (closeScope (openSession initState (some "s1") "u"))
          (some "s1") "u2").observations "s1" =
      some { start_time := 2, end_time := none, decisions := [],
             metrics := {} } ∧
    (openSession (closeScope (openSession initState (some "s1") "u"))
        (some "s1") "u2").current_session = some "s1" := by
  have h := C10_reopen_name_replaces_session
    (closeScope (openSession initState (some "s1") "u")) "s1"
    { start_time := 0, end_time := some 1, decisions := [], metrics := {} }
    "u2"
    (Reachable.closeStep (Reachable.openStep Reachable.init (by decide)))
    (by decide)
  exact h

end ObserverAI
